import Mathlib

/-!
Verification of the SoundComm client (Elperetz-Soundcomm-web).

The repository is a Next.js Socket.IO client; the authoritative client code is
`src/app/page.tsx` (the `SoundCommPanel` component). The file
`src/unnamed/part_000` is an earlier revision of the same component.
Pure presentation (JSX markup, toasts, audio, browser notifications) is not part
of any verified property and is omitted; everything below models the client's
state fields, the socket event handlers and the socket emitters.

The server-side room store (`setLevel` clamping) is not in the repository's
`src/` tree; it is modelled from the specification where a claim needs it and
every such definition says so in its doc comment.
-/

namespace SoundComm

/-- Role tag of a session: "A" (Musicians / Requester) or "B"
(Sound System / Operator), as in `useState<"A" | "B">` (page.tsx line 193). -/
inductive Role where
  | A
  | B
deriving DecidableEq

/-- JS truthiness coercion on an optional string, as in `mySocketId || undefined`
(page.tsx line 265) and `s.id || null` (line 224): `null`/`undefined` and the
empty string are falsy and collapse to "absent". -/
def jsOrNone : Option String → Option String
  | none => none
  | some s => if s = "" then none else some s

/-- JS template interpolation of a possibly-undefined string
(`${labelForText}` prints `undefined` when the argument is missing). -/
def jsStr : Option String → String
  | none => "undefined"
  | some s => s

/-- A log message, `type Msg = { id; at; from; text; senderId? }`
(page.tsx line 205). The TS field `at` is `atTime` here and `from` is
`fromRole` (both are Lean keywords). -/
structure Msg where
  id : String
  atTime : String
  fromRole : Role
  text : String
  senderId : Option String := none
deriving DecidableEq

/-- A client→server socket emission, one constructor per `s.emit(...)` call site
in page.tsx (`join-room`, `state:requestLevels`, `a:request`, `b:adjust`,
`b:ack`, `reset-levels`). -/
inductive Event where
  | joinRoom (room : String) (role : Role)
  | requestLevels (room : String)
  | aRequest (room instrumentKey action text : String)
  | bAdjust (room instrumentKey : String) (delta : Int) (text : String)
  | bAck (room : String) (instrumentKey : Option String) (text : String)
  | resetLevels (room : String)
deriving DecidableEq

/-- The `Record<string, number>` of instrument levels, modelled as an
association list observed through `List.lookup` (the most recent binding for a
key is its value). -/
abbrev LevelMap := List (String × Int)

/-- `const INITIAL_LEVEL = 5` (page.tsx line 14). -/
def INITIAL_LEVEL : Int := 5

/-- The `key` fields of the `INSTRUMENTS` table, in order
(page.tsx lines 16-29). -/
def INSTRUMENT_KEYS : List String :=
  ["keyboard", "organ", "guitar", "drum", "conga", "monitor", "songleader"]

/-- The initial `levels` state:
`INSTRUMENTS.reduce((acc, it) => ((acc[it.key] = INITIAL_LEVEL), acc), {})`
(page.tsx lines 201-203): every known instrument key maps to `INITIAL_LEVEL`. -/
def initialLevels : LevelMap := INSTRUMENT_KEYS.map (fun k => (k, INITIAL_LEVEL))

/-- `levels[it.key] ?? INITIAL_LEVEL` — the level shown for an instrument,
falling back to the default when the key is absent (page.tsx line 534). -/
def displayLevel (levels : LevelMap) (k : String) : Int :=
  (levels.lookup k).getD INITIAL_LEVEL

/-- The client component's state fields (the `useState`/`useRef` cells of
`SoundCommPanel` that the verified claims touch). -/
structure ClientState where
  connected : Bool
  mySocketId : Option String
  role : Role
  room : String
  commentA : String
  commentB : String
  levels : LevelMap
  log : List Msg
deriving DecidableEq

/-- The component's initial state: disconnected, no socket id, role "A",
room "main", empty comments, default levels, empty log. -/
def initialState : ClientState :=
  { connected := false, mySocketId := none, role := Role.A, room := "main",
    commentA := "", commentB := "", levels := initialLevels, log := [] }

/-- `[m, ...l].slice(0, 200)` — prepend a message and truncate the log to the
200 most recent entries (page.tsx lines 236 and 265). -/
def prependCap (m : Msg) (l : List Msg) : List Msg :=
  (m :: l).take 200

/-- `pushLocal` (page.tsx lines 264-267): optimistically prepend a freshly
stamped message to the local log, capped at 200. The fresh id and display time
(`crypto.randomUUID()`, `nowTime()`) are nondeterministic in the source and are
passed as parameters; the `showToast` call is presentation and omitted. -/
def pushLocal (st : ClientState) (fr : Role) (text freshId freshAt : String) :
    ClientState :=
  { st with
      log := prependCap
        { id := freshId, atTime := freshAt, fromRole := fr, text := text,
          senderId := jsOrNone st.mySocketId } st.log }

/-- The guard `m.senderId && m.senderId === s.id` (page.tsx line 234): the
embedded sender id is truthy and strictly equal to the connection's own id. -/
def senderMatches (senderId sockId : Option String) : Bool :=
  match senderId with
  | none => false
  | some sid => if sid = "" then false else sockId == some sid

/-- `onLog` (page.tsx lines 232-246): skip our own echo, otherwise prepend the
received message to the capped log. The toast/sound/notification side effects
are presentation and omitted. `sockId` is `s.id` at receipt time. -/
def onLog (st : ClientState) (sockId : Option String) (m : Msg) : ClientState :=
  if senderMatches m.senderId sockId then st
  else { st with log := prependCap m st.log }

/-- `onLevels` (page.tsx line 230): `setLevels(next || {})` — replace the whole
levels map by the payload, or by the empty map when the payload is
null/undefined. -/
def onLevels (st : ClientState) (next : Option LevelMap) : ClientState :=
  { st with levels := next.getD [] }

/-- `onConnect` (page.tsx lines 222-227): set connected, record the socket id
(`s.id || null`), then emit `join-room {room, role}` followed by
`state:requestLevels {room}`, in that order. -/
def onConnect (st : ClientState) (sockId : Option String) :
    ClientState × List Event :=
  ({ st with connected := true, mySocketId := jsOrNone sockId },
   [Event.joinRoom st.room st.role, Event.requestLevels st.room])

/-- `onDisconnect` (page.tsx line 228): `setConnected(false)`. -/
def onDisconnect (st : ClientState) : ClientState :=
  { st with connected := false }

/-- JS `String.prototype.trim()`: strip leading and trailing whitespace.
Implemented over the character list so that it evaluates inside the kernel
(Lean's own `String.trim` is definitionally opaque to `decide`). -/
def jsTrim (s : String) : String :=
  String.mk
    (((s.data.dropWhile Char.isWhitespace).reverse.dropWhile
        Char.isWhitespace).reverse)

/-- The optional comment suffix
`commentX.trim() ? \x60 • ${commentX.trim()}\x60 : ""` used by every
message-building emitter (page.tsx lines 272, 284, 294, 303). -/
def commentSuffix (c : String) : String :=
  if jsTrim c = "" then "" else " • " ++ jsTrim c

/-- The `kind` argument of `emitARequest`: `"VLK" | "VLH" | "SOUND_OK"`. -/
inductive AKind where
  | VLK
  | VLH
  | SOUND_OK
deriving DecidableEq

/-- The wire string of an `AKind` (the TS value is already a string). -/
def aKindCode : AKind → String
  | AKind.VLK => "VLK"
  | AKind.VLH => "VLH"
  | AKind.SOUND_OK => "SOUND_OK"

/-- `emitARequest` (page.tsx lines 270-279). `sock` is whether
`socketRef.current` is non-null; when it is null the function returns at once.
Otherwise it builds the text, pushes it locally, emits `a:request` and clears
`commentA`. -/
def emitARequest (sock : Bool) (st : ClientState) (instrumentKey : String)
    (kind : AKind) (labelForText : Option String) (freshId freshAt : String) :
    ClientState × List Event :=
  if !sock then (st, [])
  else
    let sfx := commentSuffix st.commentA
    let text :=
      match kind with
      | AKind.SOUND_OK => "Sound Perfect ✅" ++ sfx
      | k =>
        jsStr labelForText ++ " – " ++
          (if k = AKind.VLK then "Volume Low" else "Volume High") ++
          " (" ++ aKindCode k ++ ")" ++ sfx
    let st1 := pushLocal st Role.A text freshId freshAt
    ({ st1 with commentA := "" },
     [Event.aRequest st.room instrumentKey (aKindCode kind) text])

/-- `emitAQuick` (page.tsx lines 282-289): quick-translator message
`[${code}] ${phrase}` plus comment suffix, pushed locally and emitted as an
`a:request` with empty instrument key and action `"QUICK"`. -/
def emitAQuick (sock : Bool) (st : ClientState) (code phrase : String)
    (freshId freshAt : String) : ClientState × List Event :=
  if !sock then (st, [])
  else
    let text := "[" ++ code ++ "] " ++ phrase ++ commentSuffix st.commentA
    let st1 := pushLocal st Role.A text freshId freshAt
    ({ st1 with commentA := "" }, [Event.aRequest st.room "" "QUICK" text])

/-- `emitBAdjust` (page.tsx lines 291-299): code `"IC"` for a positive delta
and `"LV"` otherwise; the text names the instrument, the direction and the
code; the `b:adjust` payload carries the same delta and text; the message is
pushed locally and `commentB` is cleared. -/
def emitBAdjust (sock : Bool) (st : ClientState) (instrumentKey : String)
    (delta : Int) (labelForText : String) (freshId freshAt : String) :
    ClientState × List Event :=
  if !sock then (st, [])
  else
    let code := if delta > 0 then "IC" else "LV"
    let text :=
      labelForText ++ " – " ++ (if delta > 0 then "Increase" else "Lower") ++
        " (" ++ code ++ ")" ++ commentSuffix st.commentB
    let st1 := pushLocal st Role.B text freshId freshAt
    ({ st1 with commentB := "" },
     [Event.bAdjust st.room instrumentKey delta text])

/-- `emitBAck` (page.tsx lines 301-308): instrument-scoped acknowledgement when
both optional arguments are truthy, global `RECEIVED` otherwise; pushed locally
and emitted as `b:ack` with the (possibly undefined) instrument key. -/
def emitBAck (sock : Bool) (st : ClientState)
    (instrumentKey labelForText : Option String) (freshId freshAt : String) :
    ClientState × List Event :=
  if !sock then (st, [])
  else
    let sfx := commentSuffix st.commentB
    let text :=
      match jsOrNone instrumentKey, jsOrNone labelForText with
      | some _, some lbl => lbl ++ " – Received ✅" ++ sfx
      | _, _ => "RECEIVED ✅" ++ sfx
    let st1 := pushLocal st Role.B text freshId freshAt
    ({ st1 with commentB := "" }, [Event.bAck st.room instrumentKey text])

/-- `emitResetLevels` (page.tsx lines 310-313): emit `reset-levels {room}` and
nothing else — no `pushLocal`, no comment clearing, no state change. -/
def emitResetLevels (sock : Bool) (st : ClientState) : ClientState × List Event :=
  if !sock then (st, [])
  else (st, [Event.resetLevels st.room])

/-- The room-input change handler `setRoom(e.target.value.trim() || "main")`
(page.tsx line 369): the stored room key is the trimmed input, defaulting to
`"main"` when the trimmed input is empty. -/
def roomFromInput (input : String) : String :=
  if jsTrim input = "" then "main" else jsTrim input

/-! ### Server-side room store, modelled from the spec

The repository's `src/` tree contains only the client; the room-state server it
talks to (spec §4.1 RoomStore) is deployed separately and its code is not in
the repository. The definitions below are therefore modelled from the spec, as
their doc comments say. -/

/-- Modelled from the spec: the minimum of the configured valid level range of
`RoomStore.setLevel` (spec §4.1, "e.g., 0..10"); the server code is not in
`src/`. -/
def MIN_LEVEL : Int := 0

/-- Modelled from the spec: the maximum of the configured valid level range of
`RoomStore.setLevel` (spec §4.1, "e.g., 0..10"); the server code is not in
`src/`. -/
def MAX_LEVEL : Int := 10

/-- Modelled from the spec: clamp a value to the valid range — "out-of-range
deltas are clamped, not rejected" (spec §4.1). -/
def clampLevel (v : Int) : Int := max MIN_LEVEL (min MAX_LEVEL v)

/-- Modelled from the spec: `RoomStore.setLevel(roomKey, instrumentKey,
newValue)` restricted to one room's map — "clamps `newValue` to a configured
valid range" (spec §4.1). The map is an association list; the new binding
shadows any older one. -/
def setLevel (levels : LevelMap) (k : String) (v : Int) : LevelMap :=
  (k, clampLevel v) :: levels

/-- Modelled from the spec: the `OperatorAdjust` state delta — "mutates
`levels[instrumentKey] += delta`, clamped to range" (spec §4.2); a key absent
from the map is "tracked with the default initial level on first touch"
(spec §4.2). -/
def applyAdjust (levels : LevelMap) (k : String) (delta : Int) : LevelMap :=
  setLevel levels k (displayLevel levels k + delta)

/-- A whole sequence of `OperatorAdjust` actions on one room, applied in order;
each pair is (instrumentKey, delta). -/
def applyAdjusts (levels : LevelMap) (adjs : List (String × Int)) : LevelMap :=
  adjs.foldl (fun m p => applyAdjust m p.1 p.2) levels

/-- Every key of a level map reads back within the configured range. -/
def mapInRange (m : LevelMap) : Prop :=
  ∀ k, MIN_LEVEL ≤ displayLevel m k ∧ displayLevel m k ≤ MAX_LEVEL

/-! ### Helper lemmas -/

lemma clampLevel_range (v : Int) :
    MIN_LEVEL ≤ clampLevel v ∧ clampLevel v ≤ MAX_LEVEL := by
  refine ⟨le_max_left _ _, max_le ?_ (min_le_left _ _)⟩
  simp [MIN_LEVEL, MAX_LEVEL]

lemma displayLevel_setLevel (m : LevelMap) (k k' : String) (v : Int) :
    displayLevel (setLevel m k v) k' =
      if k' = k then clampLevel v else displayLevel m k' := by
  by_cases h : k' = k
  · subst h
    simp [displayLevel, setLevel, List.lookup]
  · have hb : (k' == k) = false := beq_eq_false_iff_ne.mpr h
    simp [displayLevel, setLevel, List.lookup, hb, h]

lemma mapInRange_applyAdjust (m : LevelMap) (hm : mapInRange m) (k : String)
    (δ : Int) : mapInRange (applyAdjust m k δ) := by
  intro k'
  rw [applyAdjust, displayLevel_setLevel]
  by_cases h : k' = k
  · simp only [h, if_pos rfl]
    exact clampLevel_range _
  · simp only [if_neg h]
    exact hm k'

lemma mapInRange_applyAdjusts (adjs : List (String × Int)) (m : LevelMap)
    (hm : mapInRange m) : mapInRange (applyAdjusts m adjs) := by
  induction adjs generalizing m with
  | nil => exact hm
  | cons p ps ih => exact ih _ (mapInRange_applyAdjust m hm p.1 p.2)

lemma lookup_map_const_getD (l : List String) (c : Int) (k : String) :
    (((l.map (fun x => (x, c))).lookup k).getD c) = c := by
  induction l with
  | nil => rfl
  | cons a as ih =>
    simp only [List.map, List.lookup]
    cases h : k == a
    · exact ih
    · rfl

lemma displayLevel_initial (k : String) :
    displayLevel initialLevels k = INITIAL_LEVEL := by
  simpa [displayLevel, initialLevels] using
    lookup_map_const_getD INSTRUMENT_KEYS INITIAL_LEVEL k

lemma mapInRange_initial : mapInRange initialLevels := by
  intro k
  rw [displayLevel_initial]
  simp [INITIAL_LEVEL, MIN_LEVEL, MAX_LEVEL]

lemma prependCap_length_le (m : Msg) (l : List Msg) :
    (prependCap m l).length ≤ 200 := by
  simp [prependCap, List.length_take]

lemma pushLocal_log (st : ClientState) (fr : Role) (text freshId freshAt : String) :
    (pushLocal st fr text freshId freshAt).log =
      prependCap
        { id := freshId, atTime := freshAt, fromRole := fr, text := text,
          senderId := jsOrNone st.mySocketId } st.log := rfl

lemma pushLocal_log_length (st : ClientState) (fr : Role)
    (text freshId freshAt : String) :
    (pushLocal st fr text freshId freshAt).log.length =
      min 200 (st.log.length + 1) := by
  simp [pushLocal, prependCap, List.length_take]
  omega

/-- A concrete received message whose embedded sender id is "sid-1". -/
def sampleMsg : Msg :=
  { id := "m1", atTime := "10:00", fromRole := Role.A, text := "hello",
    senderId := some "sid-1" }

/-- A concrete client state whose log is already at the 200-entry cap. -/
def bigState : ClientState :=
  { initialState with log := List.replicate 200 sampleMsg }

lemma bigState_log : bigState.log = List.replicate 200 sampleMsg := rfl

/-! ### Claim theorems -/

/-- C1: a `log:append` event whose embedded sender session id is truthy and
equals the client's own connection id is a no-op on the message log — the
echoed message is not appended again. -/
theorem C1_echo_suppression (st : ClientState) (sockId : Option String)
    (m : Msg) (h : senderMatches m.senderId sockId = true) :
    (onLog st sockId m).log = st.log := by
  simp [onLog, h]

theorem C1_echo_suppression_witness :
    senderMatches sampleMsg.senderId (some "sid-1") = true ∧
    (onLog bigState (some "sid-1") sampleMsg).log = bigState.log :=
  ⟨by decide,
   C1_echo_suppression bigState (some "sid-1") sampleMsg (by decide)⟩

/-- C2: every addition to the client log — a non-echo `log:append` receipt or a
local optimistic push — prepends the new message (newest-first) and truncates
to at most 200 entries; the 200-entry bound is preserved by every operation,
and once the log is at the cap the oldest entry is silently dropped. -/
theorem C2_log_cap (st : ClientState) (sockId : Option String) (m : Msg)
    (fr : Role) (text freshId freshAt : String) :
    (st.log.length ≤ 200 → (onLog st sockId m).log.length ≤ 200) ∧
    (pushLocal st fr text freshId freshAt).log.length ≤ 200 ∧
    (senderMatches m.senderId sockId = false →
      (onLog st sockId m).log = prependCap m st.log) ∧
    (pushLocal st fr text freshId freshAt).log =
      prependCap
        { id := freshId, atTime := freshAt, fromRole := fr, text := text,
          senderId := jsOrNone st.mySocketId } st.log ∧
    prependCap m st.log = m :: st.log.take 199 ∧
    (200 ≤ st.log.length → (prependCap m st.log).length = 200) := by
  refine ⟨?_, ?_, ?_, pushLocal_log st fr text freshId freshAt, ?_, ?_⟩
  · intro hlen
    by_cases hm : senderMatches m.senderId sockId
    · simpa [onLog, hm] using hlen
    · simp only [onLog, hm, Bool.false_eq_true, if_false]
      exact prependCap_length_le m st.log
  · exact prependCap_length_le _ _
  · intro hm
    simp [onLog, hm]
  · show (m :: st.log).take (199 + 1) = m :: st.log.take 199
    rw [List.take_succ_cons]
  · intro hlen
    simp [prependCap, List.length_take]
    omega

theorem C2_log_cap_witness :
    (onLog bigState none sampleMsg).log.length ≤ 200 ∧
    (onLog bigState none sampleMsg).log = prependCap sampleMsg bigState.log ∧
    (prependCap sampleMsg bigState.log).length = 200 :=
  ⟨(C2_log_cap bigState none sampleMsg Role.A "t" "i" "a").1
     (by rw [bigState_log, List.length_replicate]),
   (C2_log_cap bigState none sampleMsg Role.A "t" "i" "a").2.2.1 (by decide),
   (C2_log_cap bigState none sampleMsg Role.A "t" "i" "a").2.2.2.2.2
     (by rw [bigState_log, List.length_replicate])⟩

/-- C3: for every sequence of `OperatorAdjust` actions with deltas in
{-1, +1}, every instrument's level stays within [MIN_LEVEL, MAX_LEVEL]:
repeated decreases never take it below the minimum and repeated increases never
take it above the maximum — out-of-range results are clamped, not rejected. -/
theorem C3_adjust_clamping (adjs : List (String × Int))
    (_h : ∀ p ∈ adjs, p.2 = -1 ∨ p.2 = 1) (k : String) :
    MIN_LEVEL ≤ displayLevel (applyAdjusts initialLevels adjs) k ∧
    displayLevel (applyAdjusts initialLevels adjs) k ≤ MAX_LEVEL :=
  mapInRange_applyAdjusts adjs initialLevels mapInRange_initial k

theorem C3_adjust_clamping_witness :
    MIN_LEVEL ≤
      displayLevel
        (applyAdjusts initialLevels (List.replicate 7 ("guitar", -1)))
        "guitar" ∧
    displayLevel (applyAdjusts initialLevels (List.replicate 7 ("guitar", -1)))
        "guitar" ≤ MAX_LEVEL :=
  C3_adjust_clamping (List.replicate 7 ("guitar", -1)) (by decide) "guitar"

/-- C4: `emitBAdjust` builds a message text carrying the fixed code "IC" when
delta = +1 and "LV" when delta = -1, and the emitted `b:adjust` payload carries
that same delta and text; the same text is also pushed to the local log. -/
theorem C4_adjust_codes (st : ClientState) (key lbl fid fat : String) :
    (emitBAdjust true st key 1 lbl fid fat).2 =
      [Event.bAdjust st.room key 1
        (lbl ++ " – " ++ "Increase" ++ " (" ++ "IC" ++ ")" ++
          commentSuffix st.commentB)] ∧
    (emitBAdjust true st key 1 lbl fid fat).1.log =
      prependCap
        { id := fid, atTime := fat, fromRole := Role.B,
          text := lbl ++ " – " ++ "Increase" ++ " (" ++ "IC" ++ ")" ++
            commentSuffix st.commentB,
          senderId := jsOrNone st.mySocketId } st.log ∧
    (emitBAdjust true st key (-1) lbl fid fat).2 =
      [Event.bAdjust st.room key (-1)
        (lbl ++ " – " ++ "Lower" ++ " (" ++ "LV" ++ ")" ++
          commentSuffix st.commentB)] ∧
    (emitBAdjust true st key (-1) lbl fid fat).1.log =
      prependCap
        { id := fid, atTime := fat, fromRole := Role.B,
          text := lbl ++ " – " ++ "Lower" ++ " (" ++ "LV" ++ ")" ++
            commentSuffix st.commentB,
          senderId := jsOrNone st.mySocketId } st.log := by
  refine ⟨?_, ?_, ?_, ?_⟩ <;>
    simp [emitBAdjust, pushLocal, prependCap]

/-- C5: `emitResetLevels` with a live socket emits exactly the `reset-levels`
event for the current room and changes no client state at all — in particular
no optimistic log entry is pushed — whereas each of the four other emitters
does push one entry onto the capped log. -/
theorem C5_reset_levels_silent (st : ClientState) (k code phrase lbl3 fid fat : String)
    (kind : AKind) (lbl ik : Option String) :
    emitResetLevels true st = (st, [Event.resetLevels st.room]) ∧
    (emitARequest true st k kind lbl fid fat).1.log.length =
      min 200 (st.log.length + 1) ∧
    (emitAQuick true st code phrase fid fat).1.log.length =
      min 200 (st.log.length + 1) ∧
    (emitBAdjust true st k 1 lbl3 fid fat).1.log.length =
      min 200 (st.log.length + 1) ∧
    (emitBAck true st ik lbl fid fat).1.log.length =
      min 200 (st.log.length + 1) := by
  refine ⟨rfl, ?_, ?_, ?_, ?_⟩
  · cases kind <;> simp [emitARequest, pushLocal_log_length]
  · simp [emitAQuick, pushLocal_log_length]
  · simp [emitBAdjust, pushLocal_log_length]
  · cases h1 : jsOrNone ik <;> cases h2 : jsOrNone lbl <;>
      simp [emitBAck, h1, h2, pushLocal_log_length]

/-- C6: on every socket connect the client emits `join-room {room, role}` and
then `state:requestLevels {room}`, in that order, while leaving the local log
and levels untouched (levels are refreshed only by the server's `state:levels`
reply) and marking the connection as live. -/
theorem C6_connect_resync (st : ClientState) (sockId : Option String) :
    (onConnect st sockId).2 =
      [Event.joinRoom st.room st.role, Event.requestLevels st.room] ∧
    (onConnect st sockId).1.log = st.log ∧
    (onConnect st sockId).1.levels = st.levels ∧
    (onConnect st sockId).1.connected = true :=
  ⟨rfl, rfl, rfl, rfl⟩

/-- C7: the stored room key is the trimmed room-input text, and when the
trimmed text is empty the key defaults to "main"; a non-blank key is kept
verbatim (hence case-sensitive). -/
theorem C7_room_key_trim (input : String) :
    (jsTrim input = "" → roomFromInput input = "main") ∧
    (jsTrim input ≠ "" → roomFromInput input = jsTrim input) := by
  constructor <;> intro h <;> simp [roomFromInput, h]

theorem C7_room_key_trim_witness :
    roomFromInput "   " = "main" ∧
    roomFromInput " Main " = jsTrim " Main " ∧
    jsTrim " Main " = "Main" :=
  ⟨(C7_room_key_trim "   ").1 (by decide),
   (C7_room_key_trim " Main ").2 (by decide), by decide⟩

/-- C8: the initial `levels` state maps every known instrument key to the
fixed default 5, and the level display falls back to that same default for any
key absent from the current map. -/
theorem C8_initial_levels (k : String) (levels : LevelMap) :
    (k ∈ INSTRUMENT_KEYS → initialLevels.lookup k = some INITIAL_LEVEL) ∧
    INITIAL_LEVEL = 5 ∧
    (levels.lookup k = none → displayLevel levels k = INITIAL_LEVEL) := by
  refine ⟨?_, rfl, ?_⟩
  · intro hk
    fin_cases hk <;> rfl
  · intro h
    simp [displayLevel, h]

theorem C8_initial_levels_witness :
    initialLevels.lookup "guitar" = some INITIAL_LEVEL ∧
    displayLevel [] "guitar" = INITIAL_LEVEL :=
  ⟨(C8_initial_levels "guitar" []).1 (by decide),
   (C8_initial_levels "guitar" []).2.2 (by decide)⟩

/-- C9: a `state:levels` event replaces the whole local levels map by the
received payload; a null/undefined payload replaces it by the empty map,
discarding every previously known level (the log is untouched). -/
theorem C9_levels_replace (st : ClientState) (next : LevelMap) :
    (onLevels st (some next)).levels = next ∧
    (onLevels st none).levels = [] ∧
    (onLevels st none).log = st.log :=
  ⟨rfl, rfl, rfl⟩

/-- C10: when the socket reference is null, every emitter returns immediately:
it emits no event and leaves the whole client state — log, levels and comment
fields included — unchanged. -/
theorem C10_null_socket_noop (st : ClientState)
    (k code phrase lbl3 fid fat : String) (kind : AKind)
    (lbl ik : Option String) (delta : Int) :
    emitARequest false st k kind lbl fid fat = (st, []) ∧
    emitAQuick false st code phrase fid fat = (st, []) ∧
    emitBAdjust false st k delta lbl3 fid fat = (st, []) ∧
    emitBAck false st ik lbl fid fat = (st, []) ∧
    emitResetLevels false st = (st, []) :=
  ⟨rfl, rfl, rfl, rfl, rfl⟩

end SoundComm
